import Mathlib

/-!
# Verification of the SongSmash Spotify service (`src/services/spotifyService.ts`)

Shallow embedding of the credential lifecycle manager and the track
discovery/filtering engine of the SongSmash repository, together with
theorems settling the specification claims.

Conventions of the embedding:
* JavaScript `null`/`undefined` values are modelled with `Option`.
* Timestamps (`Date.now()`, `tokenExpiry`) are integers (milliseconds).
* Every `fetch` and its surrounding error handling is modelled by an
  oracle value of type `FetchResult` supplied by an environment record:
  `ok` carries the parsed JSON payload, `badStatus` is a response with
  `response.ok = false` carrying the HTTP status code, and `exn` is a
  thrown error (network failure or JSON parsing failure).
* `Math.random()`-based index selection is modelled by an environment
  supplied natural number taken modulo the list length, which reaches
  exactly the indices `Math.floor(Math.random() * n)` can produce.
-/

namespace SongSmash

/-- Outcome of one `fetch` call as observed by the calling code:
a parsed payload, a non-2xx response, or a thrown error. -/
inductive FetchResult (α : Type) where
  | ok (payload : α)
  | badStatus (status : Nat)
  | exn
deriving DecidableEq

/-- Embeds the `SpotifyTrack` interface.  `album.release_date?` is optional
in the TS interface, hence `Option`; `preview_url : string` may be the
empty string (the JSON can carry `null`, which the service's
`hasPreviewUrl` treats the same as `''` via `!!track.preview_url`).
`popularity` is read as `track.popularity || 0` throughout the service,
hence `Option` with a `getD 0` accessor. -/
structure SpotifyTrack where
  id : String
  name : String
  artistIds : List String
  albumId : String
  releaseDate : Option String
  previewUrl : String
  popularity : Option Int
deriving DecidableEq

/-- Embeds `track.popularity || 0` (a missing popularity counts as 0; the value 0
is falsy in JS but `0 || 0 = 0` agrees). -/
def popVal (t : SpotifyTrack) : Int := t.popularity.getD 0

/-- Embeds `SpotifyService.hasPreviewUrl`: `!!track.preview_url`. -/
def hasPreviewUrl (t : SpotifyTrack) : Bool := t.previewUrl ≠ ""

/-- The filters argument of `getRandomTrack`.  All four fields are optional
in the TS signature; an absent (`undefined`) list and an empty list drive
every branch of the service identically (`f.genres && f.genres.length > 0`),
so both are modelled as `[]`, and an absent `relaxFilters` as `false`. -/
structure Filters where
  genres : List String
  decades : List String
  difficulty : List String
  relaxFilters : Bool
deriving DecidableEq

/-- Embeds `DIFFICULTY_RANGES`: the fixed difficulty → popularity-band table. -/
def DIFFICULTY_RANGES (d : String) : Option (Int × Int) :=
  if d = "easy" then some (70, 100)
  else if d = "medium" then some (40, 80)
  else if d = "hard" then some (0, 50)
  else if d = "expert" then some (0, 30)
  else none

/-- Embeds `Math.min(...xs)` on a list the code guarantees non-empty
(the `[]` case is unreachable at every use site). -/
def jsMin : List Int → Int
  | [] => 0
  | x :: xs => xs.foldl min x

/-- Embeds `Math.max(...xs)` on a list the code guarantees non-empty. -/
def jsMax : List Int → Int
  | [] => 0
  | x :: xs => xs.foldl max x

/-- The `selectedRanges` computation of `getRandomTrack`:
`difficulties.filter(d => DIFFICULTY_RANGES[d]).map(d => DIFFICULTY_RANGES[d])`. -/
def selectedRanges (difficulty : List String) : List (Int × Int) :=
  (difficulty.filter (fun d => (DIFFICULTY_RANGES d).isSome)).map
    (fun d => (DIFFICULTY_RANGES d).getD (0, 0))

/-- The popularity window `getRandomTrack` derives from the difficulty
labels: `minPopularity`/`maxPopularity` start at `0`/`100` and, when at
least one selected difficulty is recognized, become
`Math.min(...lowerBounds)` / `Math.max(...upperBounds)`. -/
def difficultyWindow (difficulty : List String) : Int × Int :=
  if difficulty.length > 0 then
    let ranges := selectedRanges difficulty
    if ranges.length > 0 then
      (jsMin (ranges.map Prod.fst), jsMax (ranges.map Prod.snd))
    else (0, 100)
  else (0, 100)

/-- The inner `percentile` helper of `getRandomTrack`:
`if (arr.length === 0) return 0; const idx = Math.floor((p/100)*arr.length);
return arr[Math.min(idx, arr.length - 1)]`. -/
def percentile (arr : List Int) (p : Nat) : Int :=
  if arr.length = 0 then 0
  else
    let idx := (p * arr.length) / 100
    arr.getD (min idx (arr.length - 1)) 0

/-- Genre seed normalization in `getRandomTrack`:
`g.toLowerCase().replace(/ /g, '-')`. -/
def normSeed (g : String) : String :=
  (g.toLower).map (fun c => if c = ' ' then '-' else c)

/-- Genre normalization used by the detailed genre filter:
`g.toLowerCase().trim()`. -/
def normGenre (g : String) : String := g.toLower.trim

/-- Embeds `big.includes(small)` on JS strings: `small` occurs as a contiguous
substring of `big`. -/
def strIncludes (big small : String) : Bool :=
  decide (List.IsInfix small.data big.data)

/-- The decade → year-range table of the decade filter; unrecognized decade
names map to `null` and are filtered out (`.filter(Boolean)`). -/
def decadeYearRange (decade : String) : Option (Int × Int) :=
  if decade = "1960s" then some (1960, 1969)
  else if decade = "1970s" then some (1970, 1979)
  else if decade = "1980s" then some (1980, 1989)
  else if decade = "1990s" then some (1990, 1999)
  else if decade = "2000s" then some (2000, 2009)
  else if decade = "2010s" then some (2010, 2019)
  else if decade = "2020s" then some (2020, 2029)
  else none

/-- Embeds `parseInt(track.album.release_date.slice(0, 4))`: JS `parseInt` reads
the longest digit prefix of the first four characters and yields `NaN`
(here `none`) when there is none.  (Release dates carry no sign.) -/
def parseYear (s : String) : Option Nat :=
  let ds := (s.data.take 4).takeWhile Char.isDigit
  if ds.isEmpty then none
  else some (ds.foldl (fun a c => a * 10 + (c.toNat - 48)) 0)

/-- One track passes the decade filter when its album release year falls in
one of the requested year ranges; a track with a falsy `release_date`
(absent or empty) is dropped. -/
def trackInDecades (ranges : List (Int × Int)) (t : SpotifyTrack) : Bool :=
  match t.releaseDate with
  | none => false
  | some rd =>
    if rd = "" then false
    else match parseYear rd with
      | none => false  -- NaN compares false
      | some y => ranges.any (fun r => r.1 ≤ (y : Int) ∧ (y : Int) ≤ r.2)

/-- The decade-filtering step of `getRandomTrack` (applied only when
decades were requested and candidates exist). -/
def decadeFilter (af : Filters) (tracks : List SpotifyTrack) : List SpotifyTrack :=
  if af.decades.length > 0 ∧ tracks.length > 0 then
    let yearRanges := af.decades.filterMap decadeYearRange
    tracks.filter (trackInDecades yearRanges)
  else tracks

/-- The per-track predicate of the detailed genre filter: some normalized
track genre and some normalized user genre include one another
(`trackGenre.includes(userGenre) || userGenre.includes(trackGenre)`). -/
def genreMatches (userGenres trackGenres : List String) : Bool :=
  (trackGenres.map normGenre).any (fun tg =>
    (userGenres.map normGenre).any (fun ug =>
      strIncludes tg ug ∨ strIncludes ug tg))

/-- The detailed genre-filtering step of `getRandomTrack`.  `getTrackGenres`
accumulates artist/album genres from caches and fetches, absorbing every
fetch error internally, so its outcome is an oracle `trackGenres` function;
`lookupFails t = true` models the defensive `catch` branch of the batch
(which includes the track rather than dropping it).  Batching in groups of
10 preserves the order and membership of the surviving tracks. -/
def genreVerify (af : Filters) (trackGenres : SpotifyTrack → List String)
    (lookupFails : SpotifyTrack → Bool) (tracks : List SpotifyTrack) :
    List SpotifyTrack :=
  if af.genres.length > 0 ∧ tracks.length > 0 then
    tracks.filter (fun t =>
      if lookupFails t then true
      else genreMatches af.genres (trackGenres t))
  else tracks

/-- Insertion step of the ascending integer sort. -/
def insertSorted (x : Int) : List Int → List Int
  | [] => [x]
  | y :: ys => if x ≤ y then x :: y :: ys else y :: insertSorted x ys

/-- Embeds `.sort((a, b) => a - b)`: ascending numeric sort.  Integer values are
indistinguishable under the comparator, so any comparison sort produces
this same list; insertion sort keeps the embedding structurally
recursive. -/
def sortPops (l : List Int) : List Int := l.foldr insertSorted []

/-- The difficulty-filtering step of `getRandomTrack` (applied only when
candidates exist): fixed-band envelope when difficulty labels were given,
else the 25th/75th percentile cuts of the candidates' popularities. -/
def difficultyFilter (af : Filters) (tracks : List SpotifyTrack) :
    List SpotifyTrack :=
  if tracks.length > 0 then
    let window :=
      if af.difficulty.length > 0 then difficultyWindow af.difficulty
      else
        let pops := sortPops (tracks.map popVal)
        (percentile pops 25, percentile pops 75)
    tracks.filter (fun t => window.1 ≤ popVal t ∧ popVal t ≤ window.2)
  else tracks

/-- The list of filter variants `getRandomTrack` builds:
`[filters]`, replaced — when `relaxFilters` — by the three relaxed
variants (the third object literal omits `relaxFilters`, i.e. leaves it
`undefined`/false). -/
def searchAttemptsOf (filters : Filters) : List Filters :=
  if filters.relaxFilters then
    [ { filters with genres := [] },
      { filters with genres := [], decades := [] },
      { genres := [], decades := [], difficulty := filters.difficulty,
        relaxFilters := false } ]
  else [filters]

/-- Oracle for the network interactions of one cascade variant.
`availableSeeds` is the result of the nested `getAvailableGenres()` call
(that function absorbs all its own failures into `[]`); `recResponse`
and `searchResponse` are the recommendations / search fetches
(payload: the candidate list already defaulted by `data.tracks || []`
resp. `data.tracks?.items ?? []`); `trackGenres`/`lookupFails` drive the
detailed genre filter; `rand` drives `Math.random()` selection. -/
structure AttemptEnv where
  availableSeeds : List String
  recResponse : FetchResult (List SpotifyTrack)
  searchResponse : FetchResult (List SpotifyTrack)
  trackGenres : SpotifyTrack → List String
  lookupFails : SpotifyTrack → Bool
  rand : Nat

/-- Result of the candidate-source step of one variant: `skip` is the
`continue` to the next variant, `got` a candidate list, `thrown` an
exception escaping to the outer `catch`. -/
inductive SourceRes where
  | skip
  | got (tracks : List SpotifyTrack)
  | thrown
deriving DecidableEq

/-- The candidate-source step of one variant: with genres, resolve seeds
(`continue` when none resolve) and query recommendations (`continue` on a
non-2xx response, throw on a fetch/parse error); without genres, query
search (`tracks` stays `[]` on a non-2xx response, throw on error). -/
def sourceStep (af : Filters) (env : AttemptEnv) : SourceRes :=
  if af.genres.length > 0 then
    let validSeeds := (af.genres.map normSeed).filter
      (fun g => env.availableSeeds.contains g)
    if validSeeds.length = 0 then .skip
    else
      match env.recResponse with
      | .ok tracks => .got tracks
      | .badStatus _ => .skip
      | .exn => .thrown
  else
    match env.searchResponse with
    | .ok items => .got items
    | .badStatus _ => .got []
    | .exn => .thrown

/-- Result of one whole variant: found a track, yielded zero eligible
tracks (loop continues), or threw. -/
inductive AttemptRes where
  | found (t : SpotifyTrack)
  | zero
  | thrown
deriving DecidableEq

/-- One full variant of the cascade: source, decade filter, detailed genre
filter, difficulty filter, then a uniformly random pick when the surviving
set is non-empty. -/
def runAttempt (af : Filters) (env : AttemptEnv) : AttemptRes :=
  match sourceStep af env with
  | .thrown => .thrown
  | .skip => .zero
  | .got tracks0 =>
    let t1 := decadeFilter af tracks0
    let t2 := genreVerify af env.trackGenres env.lookupFails t1
    let t3 := difficultyFilter af t2
    if h : t3.length > 0 then
      .found (t3.get ⟨env.rand % t3.length, Nat.mod_lt _ h⟩)
    else .zero

/-- The three outcomes of `getRandomTrack`: a track, the
`{noTracks: true, attemptedFilters}` sentinel, or `null` (no valid
credential, or an exception reached the outer `catch`). -/
inductive GROutcome where
  | track (t : SpotifyTrack)
  | noTracks (attemptedFilters : Filters)
  | nullResult
deriving DecidableEq

/-- The `for` loop over `searchAttempts`, also returning the list of
variants actually attempted (in order).  Exhausting the list returns the
sentinel carrying the ORIGINAL `filters`. -/
def runCascade (original : Filters) (envs : Nat → AttemptEnv) :
    List Filters → Nat → GROutcome × List Filters
  | [], _ => (.noTracks original, [])
  | af :: rest, i =>
    match runAttempt af (envs i) with
    | .thrown => (.nullResult, [af])
    | .found t => (.track t, [af])
    | .zero =>
      let r := runCascade original envs rest (i + 1)
      (r.1, af :: r.2)

/-- Embeds `getRandomTrack`, instrumented with the list of attempted variants.
`tokenOk` is the result of the initial `ensureValidToken()` call; when it
is `false` the function logs and returns `null`. -/
def getRandomTrackT (filters : Filters) (tokenOk : Bool)
    (envs : Nat → AttemptEnv) : GROutcome × List Filters :=
  if tokenOk then runCascade filters envs (searchAttemptsOf filters) 0
  else (.nullResult, [])

/-- Embeds `getRandomTrack`: the outcome alone. -/
def getRandomTrack (filters : Filters) (tokenOk : Bool)
    (envs : Nat → AttemptEnv) : GROutcome :=
  (getRandomTrackT filters tokenOk envs).1

/-! ## Token lifecycle (`authenticate`, `refreshAccessToken`,
`exchangeCodeForTokens`, `ensureValidToken`) -/

/-- The SecureStore contents under the four keys the service uses
(`spotify_access_token`, `spotify_refresh_token`, `spotify_token_expiry`,
`spotify_code_verifier`).  The expiry is persisted as a decimal string;
it is modelled by the integer it round-trips through. -/
structure Storage where
  accessKey : Option String
  refreshKey : Option String
  expiryKey : Option Int
  verifierKey : Option String
deriving DecidableEq

/-- The in-memory fields of the `SpotifyService` singleton. -/
structure Mem where
  accessToken : Option String
  refreshToken : Option String
  tokenExpiry : Option Int
  codeVerifier : Option String
deriving DecidableEq

/-- Service state: memory, storage and the current clock (`Date.now()`,
held fixed across one call). -/
structure SState where
  mem : Mem
  store : Storage
  now : Int
deriving DecidableEq

/-- Externally visible actions of the token-lifecycle functions, used to
express "retries the refresh" / "initiates interactive authorization". -/
inductive TAction where
  | refreshFetch      -- POST grant_type=refresh_token
  | prompt            -- the InteractiveAuthorizer prompt is shown
  | exchangeFetch     -- POST grant_type=authorization_code
deriving DecidableEq

/-- Result of one lifecycle call: the boolean the TS function returns
(`false` also standing for a thrown error that the caller's `catch`
converts to `false`), the successor state, and the trace of actions. -/
structure TResult where
  ok : Bool
  state : SState
  trace : List TAction
deriving DecidableEq

/-- Embeds `isTokenExpired()`: `!tokenExpiry` (absent or the falsy `0`) counts as
expired, else `Date.now() >= tokenExpiry - 5*60*1000`. -/
def isTokenExpired (m : Mem) (now : Int) : Bool :=
  match m.tokenExpiry with
  | none => true
  | some e => e = 0 ∨ now ≥ e - 5 * 60 * 1000

/-- Embeds `saveTokensToStorage()`: writes the three in-memory values (with `''`
fallbacks for absent strings; an absent expiry round-trips as `0` here,
standing for the unparsable empty string). -/
def saveTokens (m : Mem) (st : Storage) : Storage :=
  { st with
    accessKey := some (m.accessToken.getD "")
    refreshKey := some (m.refreshToken.getD "")
    expiryKey := some (m.tokenExpiry.getD 0) }

/-- Embeds `clearTokensFromStorage()`: deletes the three credential keys
(NOT the in-memory fields, and not the verifier key). -/
def clearTokens (st : Storage) : Storage :=
  { st with accessKey := none, refreshKey := none, expiryKey := none }

/-- Payload of a successful token-endpoint response:
`{access_token, expires_in, refresh_token?}` (the refresh token is
optional on the refresh grant — rotation is not guaranteed). -/
structure TokenData where
  access_token : String
  expires_in : Int
  refresh_token : Option String
deriving DecidableEq

/-- Embeds `refreshAccessToken()`: no-op returning `false` without a refresh
token; otherwise one token-endpoint POST.  On success the memory tokens
and expiry are replaced (the refresh token only if the response carries
one) and persisted; on a non-2xx response or a thrown error the three
persisted keys are cleared and `false` is returned. -/
def refreshAccessToken (s : SState) (resp : FetchResult TokenData) : TResult :=
  match s.mem.refreshToken with
  | none => { ok := false, state := s, trace := [] }
  | some _ =>
    match resp with
    | .ok d =>
      let m : Mem :=
        { s.mem with
          accessToken := some d.access_token
          tokenExpiry := some (s.now + d.expires_in * 1000)
          refreshToken :=
            match d.refresh_token with
            | some r => some r
            | none => s.mem.refreshToken }
      { ok := true
        state := { s with mem := m, store := saveTokens m s.store }
        trace := [.refreshFetch] }
    | .badStatus _ =>
      { ok := false, state := { s with store := clearTokens s.store }
        trace := [.refreshFetch] }
    | .exn =>
      { ok := false, state := { s with store := clearTokens s.store }
        trace := [.refreshFetch] }

/-- Embeds `exchangeCodeForTokens(request, code)`: re-reads the verifier from
SecureStore (throwing when absent), POSTs the code exchange, on success
stores the new tokens and deletes the verifier key, and on every failure
path (missing verifier, non-2xx, thrown error) deletes the verifier key
and rethrows — `ok := false` stands for the rethrown error. -/
def exchangeCodeForTokens (s : SState) (resp : FetchResult TokenData) : TResult :=
  let m0 := { s.mem with codeVerifier := s.store.verifierKey }
  match m0.codeVerifier with
  | none =>
    { ok := false
      state := { s with mem := { m0 with codeVerifier := none }
                        store := { s.store with verifierKey := none } }
      trace := [] }
  | some _ =>
    match resp with
    | .ok d =>
      let m : Mem :=
        { accessToken := some d.access_token
          refreshToken := d.refresh_token
          tokenExpiry := some (s.now + d.expires_in * 1000)
          codeVerifier := none }
      { ok := true
        state := { s with mem := m
                          store := { saveTokens m s.store with verifierKey := none } }
        trace := [.exchangeFetch] }
    | .badStatus _ =>
      { ok := false
        state := { s with mem := { m0 with codeVerifier := none }
                          store := { s.store with verifierKey := none } }
        trace := [.exchangeFetch] }
    | .exn =>
      { ok := false
        state := { s with mem := { m0 with codeVerifier := none }
                          store := { s.store with verifierKey := none } }
        trace := [.exchangeFetch] }

/-- Result of `request.promptAsync`: a successful callback carrying an
authorization code, any non-success result (dismiss/cancel/error), or a
thrown error. -/
inductive PromptResult where
  | success (code : String)
  | notSuccess
  | exn
deriving DecidableEq

/-- Oracle for one `authenticate()` call: the refresh-endpoint response
(used only when a refresh token exists), the generated 128-character code
verifier, the prompt outcome, and the code-exchange response. -/
structure AuthEnv where
  refreshResp : FetchResult TokenData
  verifier : String
  promptResult : PromptResult
  exchangeResp : FetchResult TokenData
deriving DecidableEq

/-- The interactive part of `authenticate()` (its `try` block): delete any
existing verifier, generate and persist a fresh one, prompt; on a
successful callback exchange the code (errors caught → `false`), on any
other prompt outcome return `false` — WITHOUT touching the persisted
verifier. -/
def interactiveAuth (s : SState) (env : AuthEnv) : TResult :=
  let s1 : SState :=
    { s with mem := { s.mem with codeVerifier := some env.verifier }
             store := { s.store with verifierKey := some env.verifier } }
  match env.promptResult with
  | .exn => { ok := false, state := s1, trace := [.prompt] }
  | .notSuccess => { ok := false, state := s1, trace := [.prompt] }
  | .success _ =>
    let r := exchangeCodeForTokens s1 env.exchangeResp
    { r with trace := .prompt :: r.trace }

/-- Embeds `authenticate()`: return `true` on a live token; else try a refresh
when a refresh token exists; else run the interactive PKCE flow. -/
def authenticate (s : SState) (env : AuthEnv) : TResult :=
  if s.mem.accessToken.isSome ∧ ¬ isTokenExpired s.mem s.now then
    { ok := true, state := s, trace := [] }
  else
    match s.mem.refreshToken with
    | some _ =>
      let r := refreshAccessToken s env.refreshResp
      if r.ok then r
      else
        let r2 := interactiveAuth r.state env
        { r2 with trace := r.trace ++ r2.trace }
    | none => interactiveAuth s env

/-- Oracle for one `ensureValidToken()` call: the response to its own
refresh attempt plus the environment of the `authenticate()` fallback. -/
structure EVTEnv where
  refreshResp : FetchResult TokenData
  authEnv : AuthEnv
deriving DecidableEq

/-- Embeds `ensureValidToken()`: return `true` on a live token; else refresh when
a refresh token exists; else (or when the refresh fails) authenticate. -/
def ensureValidToken (s : SState) (env : EVTEnv) : TResult :=
  if s.mem.accessToken.isSome ∧ ¬ isTokenExpired s.mem s.now then
    { ok := true, state := s, trace := [] }
  else
    match s.mem.refreshToken with
    | some _ =>
      let r := refreshAccessToken s env.refreshResp
      if r.ok then r
      else
        let r2 := authenticate r.state env.authEnv
        { r2 with trace := r.trace ++ r2.trace }
    | none => authenticate s env.authEnv

/-! ## `getAvailableGenres` -/

/-- Oracle for one `getAvailableGenres()` call: the result of its
`ensureValidToken()` call and the genre-seeds fetch (payload:
`data.genres`, possibly absent). -/
structure GenresEnv where
  tokenOk : Bool
  response : FetchResult (Option (List String))
deriving DecidableEq

/-- Embeds `getAvailableGenres()`: `[]` without a valid token; one fetch; `[]` on
any non-2xx response or thrown error, else `data.genres || []`. -/
def getAvailableGenres (env : GenresEnv) : List String :=
  if env.tokenOk then
    match env.response with
    | .ok gs => gs.getD []
    | .badStatus _ => []
    | .exn => []
  else []

/-- Number of genre-seeds fetches `getAvailableGenres()` issues: one when
a valid token is available, zero otherwise — the code is straight-line
and never retries the call. -/
def getAvailableGenresFetchCount (env : GenresEnv) : Nat :=
  if env.tokenOk then 1 else 0

/-- Number of re-authentications `getAvailableGenres()` performs in
response to its fetch's status: the function body contains no
status-triggered authentication call at all. -/
def getAvailableGenresReauthCount (_ : GenresEnv) : Nat := 0

/-! ## Helper lemmas -/

lemma foldl_min_le_init (x : Int) (l : List Int) : l.foldl min x ≤ x := by
  induction l generalizing x with
  | nil => exact le_refl x
  | cons a t ih => exact le_trans (ih (min x a)) (min_le_left x a)

lemma foldl_min_le_mem {y : Int} (x : Int) (l : List Int) (hy : y ∈ l) :
    l.foldl min x ≤ y := by
  induction l generalizing x with
  | nil => cases hy
  | cons a t ih =>
    rcases List.mem_cons.1 hy with rfl | h
    · exact le_trans (foldl_min_le_init (min x y) t) (min_le_right x y)
    · exact ih (min x a) h

lemma foldl_min_mem (x : Int) (l : List Int) :
    l.foldl min x = x ∨ l.foldl min x ∈ l := by
  induction l generalizing x with
  | nil => exact Or.inl rfl
  | cons a t ih =>
    rcases ih (min x a) with h | h
    · rcases min_choice x a with h' | h'
      · exact Or.inl (by rw [List.foldl_cons, h, h'])
      · exact Or.inr (by
          rw [List.foldl_cons, h, h']; exact List.mem_cons_self a t)
    · exact Or.inr (List.mem_cons_of_mem a h)

lemma foldl_max_init_le (x : Int) (l : List Int) : x ≤ l.foldl max x := by
  induction l generalizing x with
  | nil => exact le_refl x
  | cons a t ih => exact le_trans (le_max_left x a) (ih (max x a))

lemma foldl_max_mem_le {y : Int} (x : Int) (l : List Int) (hy : y ∈ l) :
    y ≤ l.foldl max x := by
  induction l generalizing x with
  | nil => cases hy
  | cons a t ih =>
    rcases List.mem_cons.1 hy with rfl | h
    · exact le_trans (le_max_right x y) (foldl_max_init_le (max x y) t)
    · exact ih (max x a) h

lemma foldl_max_mem (x : Int) (l : List Int) :
    l.foldl max x = x ∨ l.foldl max x ∈ l := by
  induction l generalizing x with
  | nil => exact Or.inl rfl
  | cons a t ih =>
    rcases ih (max x a) with h | h
    · rcases max_choice x a with h' | h'
      · exact Or.inl (by rw [List.foldl_cons, h, h'])
      · exact Or.inr (by
          rw [List.foldl_cons, h, h']; exact List.mem_cons_self a t)
    · exact Or.inr (List.mem_cons_of_mem a h)

lemma jsMin_le {l : List Int} {x : Int} (hx : x ∈ l) : jsMin l ≤ x := by
  cases l with
  | nil => cases hx
  | cons a t =>
    rcases List.mem_cons.1 hx with rfl | h
    · exact foldl_min_le_init x t
    · exact foldl_min_le_mem a t h

lemma jsMin_mem {l : List Int} (h : l ≠ []) : jsMin l ∈ l := by
  cases l with
  | nil => exact absurd rfl h
  | cons a t =>
    rcases foldl_min_mem a t with h' | h'
    · exact (show t.foldl min a ∈ a :: t by
        rw [h']; exact List.mem_cons_self a t)
    · exact List.mem_cons_of_mem a h'

lemma le_jsMax {l : List Int} {x : Int} (hx : x ∈ l) : x ≤ jsMax l := by
  cases l with
  | nil => cases hx
  | cons a t =>
    rcases List.mem_cons.1 hx with rfl | h
    · exact foldl_max_init_le x t
    · exact foldl_max_mem_le a t h

lemma jsMax_mem {l : List Int} (h : l ≠ []) : jsMax l ∈ l := by
  cases l with
  | nil => exact absurd rfl h
  | cons a t =>
    rcases foldl_max_mem a t with h' | h'
    · exact (show t.foldl max a ∈ a :: t by
        rw [h']; exact List.mem_cons_self a t)
    · exact List.mem_cons_of_mem a h'

/-! ## C3 -/

/-- C3: the fixed-band difficulty mapping assigns easy ↦ [70,100],
medium ↦ [40,80], hard ↦ [0,50], expert ↦ [0,30]; for every non-empty set
of selected (recognized) labels the effective popularity window is
[min of the selected lower bounds, max of the selected upper bounds] —
it lower-bounds every selected band, upper-bounds every selected band,
and both endpoints are attained by selected bands; in particular
{easy, hard} yields [0,100] and {medium} yields [40,80]. -/
theorem C3_difficulty_band_mapping (labels : List String) (hne : labels ≠ [])
    (hrec : ∀ l ∈ labels, (DIFFICULTY_RANGES l).isSome) :
    DIFFICULTY_RANGES "easy" = some (70, 100) ∧
    DIFFICULTY_RANGES "medium" = some (40, 80) ∧
    DIFFICULTY_RANGES "hard" = some (0, 50) ∧
    DIFFICULTY_RANGES "expert" = some (0, 30) ∧
    (∀ l r, l ∈ labels → DIFFICULTY_RANGES l = some r →
      (difficultyWindow labels).1 ≤ r.1 ∧ r.2 ≤ (difficultyWindow labels).2) ∧
    (∃ l ∈ labels, ∃ r, DIFFICULTY_RANGES l = some r ∧
      (difficultyWindow labels).1 = r.1) ∧
    (∃ l ∈ labels, ∃ r, DIFFICULTY_RANGES l = some r ∧
      (difficultyWindow labels).2 = r.2) ∧
    difficultyWindow ["easy", "hard"] = (0, 100) ∧
    difficultyWindow ["medium"] = (40, 80) := by
  have hfilter : labels.filter (fun d => (DIFFICULTY_RANGES d).isSome) = labels :=
    List.filter_eq_self.mpr hrec
  have hranges : selectedRanges labels =
      labels.map (fun d => (DIFFICULTY_RANGES d).getD (0, 0)) := by
    rw [selectedRanges, hfilter]
  have hrlen : selectedRanges labels ≠ [] := by
    rw [hranges]
    simpa using hne
  have hwin : difficultyWindow labels =
      (jsMin ((selectedRanges labels).map Prod.fst),
       jsMax ((selectedRanges labels).map Prod.snd)) := by
    rw [difficultyWindow, if_pos (List.length_pos.mpr hne)]
    simp only [if_pos (List.length_pos.mpr hrlen)]
  have hmemr : ∀ l ∈ labels,
      (DIFFICULTY_RANGES l).getD (0, 0) ∈ selectedRanges labels := by
    intro l hl
    rw [hranges]
    exact List.mem_map_of_mem _ hl
  refine ⟨rfl, rfl, rfl, rfl, ?_, ?_, ?_, by decide, by decide⟩
  · intro l r hl hr
    have hmem := hmemr l hl
    rw [hr] at hmem
    constructor
    · rw [hwin]
      exact jsMin_le (List.mem_map_of_mem Prod.fst hmem)
    · rw [hwin]
      exact le_jsMax (List.mem_map_of_mem Prod.snd hmem)
  · have hmm : jsMin ((selectedRanges labels).map Prod.fst) ∈
        (selectedRanges labels).map Prod.fst :=
      jsMin_mem (by simpa using hrlen)
    rcases List.mem_map.1 hmm with ⟨r, hr, hval⟩
    rw [hranges] at hr
    rcases List.mem_map.1 hr with ⟨l, hl, hget⟩
    refine ⟨l, hl, r, ?_, by rw [hwin, hval]⟩
    rcases hDR : DIFFICULTY_RANGES l with _ | v
    · exact absurd (hrec l hl) (by simp [hDR])
    · rw [hDR] at hget
      simpa [hget] using hget ▸ rfl
  · have hmm : jsMax ((selectedRanges labels).map Prod.snd) ∈
        (selectedRanges labels).map Prod.snd :=
      jsMax_mem (by simpa using hrlen)
    rcases List.mem_map.1 hmm with ⟨r, hr, hval⟩
    rw [hranges] at hr
    rcases List.mem_map.1 hr with ⟨l, hl, hget⟩
    refine ⟨l, hl, r, ?_, by rw [hwin, hval]⟩
    rcases hDR : DIFFICULTY_RANGES l with _ | v
    · exact absurd (hrec l hl) (by simp [hDR])
    · rw [hDR] at hget
      simpa [hget] using hget ▸ rfl

/-- C3 witness: instantiated at the selected labels {easy, hard}. -/
theorem C3_difficulty_band_mapping_witness :
    DIFFICULTY_RANGES "easy" = some (70, 100) ∧
    difficultyWindow ["easy", "hard"] = (0, 100) :=
  ⟨(C3_difficulty_band_mapping ["easy", "hard"] (by decide) (by decide)).1,
   (C3_difficulty_band_mapping ["easy", "hard"] (by decide)
      (by decide)).2.2.2.2.2.2.2.1⟩

/-! ## C9 -/

/-- C9: the percentile helper uses the nearest-rank index
`floor(p/100 * n)` clamped to the last element; it returns `0` on the
empty array, the first element at `p = 0`, and is monotone in `p` on a
sorted array — in particular `percentile arr 75 ≥ percentile arr 25`. -/
theorem C9_percentile_properties (arr : List Int) (p q : Nat) (hne : arr ≠ [])
    (hsorted : arr.Sorted (· ≤ ·)) (hpq : p ≤ q) :
    percentile [] p = 0 ∧
    percentile arr 0 = arr.head hne ∧
    percentile arr p = arr.getD (min (p * arr.length / 100) (arr.length - 1)) 0 ∧
    percentile arr p ≤ percentile arr q := by
  have hlen : 0 < arr.length := List.length_pos.mpr hne
  have hlen' : arr.length ≠ 0 := Nat.pos_iff_ne_zero.mp hlen
  refine ⟨rfl, ?_, ?_, ?_⟩
  · cases arr with
    | nil => exact absurd rfl hne
    | cons a t =>
      show percentile (a :: t) 0 = a
      rw [percentile, if_neg hlen']
      simp
  · rw [percentile, if_neg hlen']
  · have hidx : ∀ r : Nat, min (r * arr.length / 100) (arr.length - 1) < arr.length :=
      fun r => lt_of_le_of_lt (min_le_right _ _) (Nat.sub_lt hlen Nat.one_pos)
    have hle : min (p * arr.length / 100) (arr.length - 1) ≤
        min (q * arr.length / 100) (arr.length - 1) :=
      min_le_min (Nat.div_le_div_right (Nat.mul_le_mul_right arr.length hpq))
        (le_refl _)
    rw [percentile, percentile, if_neg hlen', if_neg hlen']
    rw [List.getD_eq_getElem arr 0 (hidx p), List.getD_eq_getElem arr 0 (hidx q)]
    exact hsorted.rel_get_of_le hle

/-- C9 witness: instantiated at the sorted array [3, 5, 9]. -/
theorem C9_percentile_properties_witness :
    percentile [] 25 = 0 ∧
    percentile [3, 5, 9] 0 = 3 ∧
    percentile [3, 5, 9] 25 ≤ percentile [3, 5, 9] 75 :=
  have h := C9_percentile_properties [3, 5, 9] 25 75 (by decide)
    (by decide) (by decide)
  ⟨h.1, h.2.1, h.2.2.2⟩

/-! ## C6 -/

/-- C6: a stored credential is usable exactly while
`now < expiresAt - 5 minutes` (for a non-negative clock), and when the
expiry is less than 5 minutes away (e.g. `expiresAt = now + 4 min`),
`ensureValidToken` does not return the credential directly — its very
first action is a refresh attempt (possible because a refresh token is
present). -/
theorem C6_freshness_skew (s : SState) (env : EVTEnv) (a r : String) (e : Int)
    (ha : s.mem.accessToken = some a) (he : s.mem.tokenExpiry = some e)
    (hr : s.mem.refreshToken = some r) (hnow : 0 ≤ s.now) :
    (isTokenExpired s.mem s.now = false ↔ s.now < e - 5 * 60 * 1000) ∧
    (e - s.now < 5 * 60 * 1000 →
      (ensureValidToken s env).trace.head? = some .refreshFetch) := by
  constructor
  · rw [isTokenExpired, he]
    constructor
    · intro h
      by_contra hlt
      simp only [decide_eq_false_iff_not, not_or, not_le] at h
      omega
    · intro h
      simp only [decide_eq_false_iff_not, not_or, not_le]
      omega
  · intro hclose
    have hexp : isTokenExpired s.mem s.now = true := by
      rw [isTokenExpired, he]
      simp only [decide_eq_true_eq]
      omega
    rw [ensureValidToken, if_neg (by simp [hexp]), hr]
    simp only []
    rw [refreshAccessToken.eq_def, hr]
    rcases env.refreshResp with d | st | _ <;> simp

/-- C6 witness: `expiresAt = now + 4 minutes` with a refresh token
present triggers a refresh. -/
theorem C6_freshness_skew_witness :
    (isTokenExpired
        { accessToken := some "at", refreshToken := some "rt",
          tokenExpiry := some 1240000, codeVerifier := none }
        1000000 = false ↔ (1000000 : Int) < 1240000 - 5 * 60 * 1000) ∧
    ((1240000 : Int) - 1000000 < 5 * 60 * 1000 →
      (ensureValidToken
        { mem := { accessToken := some "at", refreshToken := some "rt",
                   tokenExpiry := some 1240000, codeVerifier := none },
          store := { accessKey := some "at", refreshKey := some "rt",
                     expiryKey := some 1240000, verifierKey := none },
          now := 1000000 }
        { refreshResp := .badStatus 400,
          authEnv := { refreshResp := .badStatus 400, verifier := "v",
                       promptResult := .notSuccess,
                       exchangeResp := .exn } }).trace.head? =
        some .refreshFetch) :=
  C6_freshness_skew
    { mem := { accessToken := some "at", refreshToken := some "rt",
               tokenExpiry := some 1240000, codeVerifier := none },
      store := { accessKey := some "at", refreshKey := some "rt",
                 expiryKey := some 1240000, verifierKey := none },
      now := 1000000 }
    { refreshResp := .badStatus 400,
      authEnv := { refreshResp := .badStatus 400, verifier := "v",
                   promptResult := .notSuccess, exchangeResp := .exn } }
    "at" "rt" 1240000 rfl rfl rfl (by norm_num)

/-! ## C4 -/

/-- C4 counterexample: an interactive attempt in which the user declines
the prompt completes with the persisted PKCE verifier STILL in storage —
the claim that every attempt deletes the verifier before completing, on
any failure at any step, is false at this input. -/
theorem C4_counterexample :
    (authenticate
      { mem := { accessToken := none, refreshToken := none,
                 tokenExpiry := none, codeVerifier := none },
        store := { accessKey := none, refreshKey := none,
                   expiryKey := none, verifierKey := none },
        now := 0 }
      { refreshResp := .badStatus 400, verifier := "pkce-verifier-value",
        promptResult := .notSuccess, exchangeResp := .exn }).ok = false ∧
    (authenticate
      { mem := { accessToken := none, refreshToken := none,
                 tokenExpiry := none, codeVerifier := none },
        store := { accessKey := none, refreshKey := none,
                   expiryKey := none, verifierKey := none },
        now := 0 }
      { refreshResp := .badStatus 400, verifier := "pkce-verifier-value",
        promptResult := .notSuccess, exchangeResp := .exn
      }).state.store.verifierKey = some "pkce-verifier-value" := by
  constructor <;> rfl

/-- C4 amended: `exchangeCodeForTokens` always leaves the verifier key
deleted — in particular after a failed code exchange (and after a
successful one) the persisted verifier is absent; but when the prompt is
declined, the attempt returns with the verifier still persisted (it is
only cleared at the start of the next attempt). -/
theorem C4_amended_verifier_lifecycle (s : SState) (env : AuthEnv)
    (resp : FetchResult TokenData)
    (hna : s.mem.accessToken = none) (hnr : s.mem.refreshToken = none) :
    (exchangeCodeForTokens s resp).state.store.verifierKey = none ∧
    (env.promptResult = .notSuccess →
      (authenticate s env).ok = false ∧
      (authenticate s env).state.store.verifierKey = some env.verifier) ∧
    (∀ code st, env.promptResult = .success code →
      env.exchangeResp = .badStatus st →
      (authenticate s env).ok = false ∧
      (authenticate s env).state.store.verifierKey = none) ∧
    (∀ code d, env.promptResult = .success code →
      env.exchangeResp = .ok d →
      (authenticate s env).ok = true ∧
      (authenticate s env).state.store.verifierKey = none) := by
  have hauth : authenticate s env = interactiveAuth s env := by
    rw [authenticate, if_neg (by simp [hna]), hnr]
  refine ⟨?_, ?_, ?_, ?_⟩
  · rw [exchangeCodeForTokens.eq_def]
    rcases hv : s.store.verifierKey with _ | v <;>
      simp only [hv] <;>
      rcases resp with d | st | _ <;> rfl
  · intro hp
    rw [hauth, interactiveAuth, hp]
    exact ⟨rfl, rfl⟩
  · intro code st hp hx
    rw [hauth, interactiveAuth, hp]
    simp only [exchangeCodeForTokens, hx]
    constructor <;> trivial
  · intro code d hp hx
    rw [hauth, interactiveAuth, hp]
    simp only [exchangeCodeForTokens, hx]
    constructor <;> trivial

/-- C4 amended witness: a concrete declined prompt and a concrete failed
exchange. -/
theorem C4_amended_verifier_lifecycle_witness :
    ((authenticate
      { mem := { accessToken := none, refreshToken := none,
                 tokenExpiry := none, codeVerifier := none },
        store := { accessKey := none, refreshKey := none,
                   expiryKey := none, verifierKey := none },
        now := 0 }
      { refreshResp := .exn, verifier := "v128",
        promptResult := .notSuccess, exchangeResp := .badStatus 400
      }).state.store.verifierKey = some "v128") ∧
    ((exchangeCodeForTokens
      { mem := { accessToken := none, refreshToken := none,
                 tokenExpiry := none, codeVerifier := none },
        store := { accessKey := none, refreshKey := none,
                   expiryKey := none, verifierKey := some "v128" },
        now := 0 }
      (.badStatus 400)).state.store.verifierKey = none) :=
  have h1 := C4_amended_verifier_lifecycle
    { mem := { accessToken := none, refreshToken := none,
               tokenExpiry := none, codeVerifier := none },
      store := { accessKey := none, refreshKey := none,
                 expiryKey := none, verifierKey := none },
      now := 0 }
    { refreshResp := .exn, verifier := "v128",
      promptResult := .notSuccess, exchangeResp := .badStatus 400 }
    (.badStatus 400) rfl rfl
  have h2 := C4_amended_verifier_lifecycle
    { mem := { accessToken := none, refreshToken := none,
               tokenExpiry := none, codeVerifier := none },
      store := { accessKey := none, refreshKey := none,
                 expiryKey := none, verifierKey := some "v128" },
      now := 0 }
    { refreshResp := .exn, verifier := "v128",
      promptResult := .notSuccess, exchangeResp := .badStatus 400 }
    (.badStatus 400) rfl rfl
  ⟨(h1.2.1 rfl).2, h2.1⟩

/-! ## C5 -/

/-- C5 counterexample: after a refresh that fails with a 400, the three
persisted values are purged, yet the very next `ensureValidToken()` call
silently retries the stale refresh token (its trace is a refresh fetch,
then `authenticate`'s own refresh fetch, then the prompt) — the claim
that the next call does not retry the stale refresh token is false at
this input. -/
theorem C5_counterexample :
    (refreshAccessToken
      { mem := { accessToken := some "a", refreshToken := some "r",
                 tokenExpiry := some 600000, codeVerifier := none },
        store := { accessKey := some "a", refreshKey := some "r",
                   expiryKey := some 600000, verifierKey := none },
        now := 1200000 }
      (.badStatus 400)).state.mem.refreshToken = some "r" ∧
    (ensureValidToken
      (refreshAccessToken
        { mem := { accessToken := some "a", refreshToken := some "r",
                   tokenExpiry := some 600000, codeVerifier := none },
          store := { accessKey := some "a", refreshKey := some "r",
                     expiryKey := some 600000, verifierKey := none },
          now := 1200000 }
        (.badStatus 400)).state
      { refreshResp := .badStatus 400,
        authEnv := { refreshResp := .badStatus 400, verifier := "v",
                     promptResult := .notSuccess,
                     exchangeResp := .exn } }).trace =
      [.refreshFetch, .refreshFetch, .prompt] := by
  constructor <;> rfl

/-- C5 amended: when a token refresh fails, all three persisted credential
values are purged and the call reports failure, but the in-memory refresh
token survives; the next `ensureValidToken()` therefore begins by silently
retrying the stale refresh token, and only after that retry (and
`authenticate`'s own retry) fails does it reach interactive
authorization — within the same call. -/
theorem C5_amended_refresh_failure (s : SState) (env : EVTEnv) (r : String)
    (st st2 st3 : Nat)
    (hr : s.mem.refreshToken = some r)
    (hexp : isTokenExpired s.mem s.now = true)
    (henv1 : env.refreshResp = .badStatus st2)
    (henv2 : env.authEnv.refreshResp = .badStatus st3) :
    (refreshAccessToken s (.badStatus st)).ok = false ∧
    (refreshAccessToken s (.badStatus st)).state.store.accessKey = none ∧
    (refreshAccessToken s (.badStatus st)).state.store.refreshKey = none ∧
    (refreshAccessToken s (.badStatus st)).state.store.expiryKey = none ∧
    (refreshAccessToken s (.badStatus st)).state.mem.refreshToken = some r ∧
    (ensureValidToken (refreshAccessToken s (.badStatus st)).state
        env).trace.head? = some .refreshFetch ∧
    .prompt ∈ (ensureValidToken (refreshAccessToken s (.badStatus st)).state
        env).trace := by
  have hfail : refreshAccessToken s (.badStatus st) =
      { ok := false, state := { s with store := clearTokens s.store },
        trace := [.refreshFetch] } := by
    rw [refreshAccessToken.eq_def, hr]
  rw [hfail]
  have hmem : ({ s with store := clearTokens s.store } : SState).mem = s.mem := rfl
  have hnow : ({ s with store := clearTokens s.store } : SState).now = s.now := rfl
  have hretry : refreshAccessToken { s with store := clearTokens s.store }
      (.badStatus st2) =
      { ok := false,
        state := { s with store := clearTokens (clearTokens s.store) },
        trace := [.refreshFetch] } := by
    rw [refreshAccessToken.eq_def]
    rw [show ({ s with store := clearTokens s.store } : SState).mem.refreshToken
        = some r from hr]
  have hevt : ensureValidToken { s with store := clearTokens s.store } env =
      (let r2 := authenticate
        { s with store := clearTokens (clearTokens s.store) } env.authEnv
       { r2 with trace := [TAction.refreshFetch] ++ r2.trace }) := by
    rw [ensureValidToken, if_neg (by simp [hexp]), hr, henv1]
    simp only [hretry]
    rfl
  have hauth : authenticate
      { s with store := clearTokens (clearTokens s.store) } env.authEnv =
      (let r3 := interactiveAuth
        { s with store := clearTokens (clearTokens (clearTokens s.store)) }
        env.authEnv
       { r3 with trace := [TAction.refreshFetch] ++ r3.trace }) := by
    rw [authenticate, if_neg (by simp [hexp]), hr, henv2]
    rw [show refreshAccessToken
        { s with store := clearTokens (clearTokens s.store) }
        (.badStatus st3) =
        { ok := false,
          state := { s with
            store := clearTokens (clearTokens (clearTokens s.store)) },
          trace := [.refreshFetch] } from by
      rw [refreshAccessToken.eq_def]
      rw [show ({ s with store := clearTokens (clearTokens s.store) } :
          SState).mem.refreshToken = some r from hr]]
    rfl
  refine ⟨rfl, rfl, rfl, rfl, hr, ?_, ?_⟩
  · rw [hevt]
    simp
  · rw [hevt]
    simp only [List.mem_append]
    right
    rw [hauth]
    simp only [List.mem_append]
    right
    rw [interactiveAuth]
    rcases env.authEnv.promptResult with code | _ | _ <;> simp

/-- C5 amended witness: concrete expired credentials, a 400 from the
refresh endpoint, and a declined re-login prompt. -/
theorem C5_amended_refresh_failure_witness :
    (refreshAccessToken
      { mem := { accessToken := some "a", refreshToken := some "r",
                 tokenExpiry := some 600000, codeVerifier := none },
        store := { accessKey := some "a", refreshKey := some "r",
                   expiryKey := some 600000, verifierKey := none },
        now := 1200000 }
      (.badStatus 400)).ok = false ∧
    (refreshAccessToken
      { mem := { accessToken := some "a", refreshToken := some "r",
                 tokenExpiry := some 600000, codeVerifier := none },
        store := { accessKey := some "a", refreshKey := some "r",
                   expiryKey := some 600000, verifierKey := none },
        now := 1200000 }
      (.badStatus 400)).state.store.accessKey = none ∧
    .prompt ∈ (ensureValidToken
      (refreshAccessToken
        { mem := { accessToken := some "a", refreshToken := some "r",
                   tokenExpiry := some 600000, codeVerifier := none },
          store := { accessKey := some "a", refreshKey := some "r",
                     expiryKey := some 600000, verifierKey := none },
          now := 1200000 }
        (.badStatus 400)).state
      { refreshResp := .badStatus 400,
        authEnv := { refreshResp := .badStatus 400, verifier := "v",
                     promptResult := .notSuccess,
                     exchangeResp := .exn } }).trace :=
  have h := C5_amended_refresh_failure
    { mem := { accessToken := some "a", refreshToken := some "r",
               tokenExpiry := some 600000, codeVerifier := none },
      store := { accessKey := some "a", refreshKey := some "r",
                 expiryKey := some 600000, verifierKey := none },
      now := 1200000 }
    { refreshResp := .badStatus 400,
      authEnv := { refreshResp := .badStatus 400, verifier := "v",
                   promptResult := .notSuccess, exchangeResp := .exn } }
    "r" 400 400 400 rfl (by decide) rfl rfl
  ⟨h.1, h.2.1, h.2.2.2.2.2.2⟩

/-! ## Cascade lemmas -/

lemma runCascade_all_zero (original : Filters) (envs : Nat → AttemptEnv)
    (l : List Filters) (i : Nat)
    (h : ∀ j af, l.get? j = some af → runAttempt af (envs (i + j)) = .zero) :
    runCascade original envs l i = (.noTracks original, l) := by
  induction l generalizing i with
  | nil => rfl
  | cons af rest ih =>
    have h0 : runAttempt af (envs i) = .zero := by
      have := h 0 af rfl
      simpa using this
    rw [runCascade, h0]
    have hrest : runCascade original envs rest (i + 1) =
        (.noTracks original, rest) := by
      refine ih (i + 1) ?_
      intro j af' hj
      have := h (j + 1) af' (by simpa using hj)
      rw [show i + (j + 1) = i + 1 + j by omega] at this
      exact this
    rw [hrest]

lemma runCascade_track_mem {original : Filters} {envs : Nat → AttemptEnv}
    {l : List Filters} {i : Nat} {t : SpotifyTrack}
    (h : (runCascade original envs l i).1 = .track t) :
    ∃ af ∈ l, ∃ k, runAttempt af (envs k) = .found t := by
  induction l generalizing i with
  | nil => simp [runCascade] at h
  | cons af rest ih =>
    rw [runCascade] at h
    rcases hres : runAttempt af (envs i) with t' | _ | _ <;> rw [hres] at h
    · simp only at h
      injection h with h'
      exact ⟨af, List.mem_cons_self _ _, i, h' ▸ hres⟩
    · simp only at h
      rcases ih h with ⟨af', hmem, k, hk⟩
      exact ⟨af', List.mem_cons_of_mem _ hmem, k, hk⟩
    · simp at h

lemma searchAttempts_difficulty (f : Filters) :
    ∀ af ∈ searchAttemptsOf f, af.difficulty = f.difficulty := by
  intro af haf
  rw [searchAttemptsOf] at haf
  rcases hb : f.relaxFilters with _ | _ <;> rw [hb] at haf <;>
    simp at haf
  · rw [haf]
  · rcases haf with h | h | h <;> rw [h]

/-! ## C1 -/

/-- C1 counterexample: with `relaxFilters = true` the variant list has
three entries, not four, and the original filters are not among them —
the claim that `getRandomTrack` tries the original filters first and four
variants in all is false at this input. -/
theorem C1_counterexample :
    (searchAttemptsOf
      { genres := ["pop"], decades := ["1990s"], difficulty := ["easy"],
        relaxFilters := true }).length = 3 ∧
    ({ genres := ["pop"], decades := ["1990s"], difficulty := ["easy"],
       relaxFilters := true } : Filters) ∉
      searchAttemptsOf
        { genres := ["pop"], decades := ["1990s"], difficulty := ["easy"],
          relaxFilters := true } := by
  constructor
  · rfl
  · decide

/-- C1 amended: with `relaxFilters = true`, `getRandomTrack` tries exactly
THREE filter variants, in order: genres cleared, then genres and decades
cleared, then only difficulty retained (the original filters are NOT
tried); and when every variant yields zero eligible tracks it returns the
no-tracks sentinel carrying the ORIGINAL filters, having attempted all
three variants. -/
theorem C1_amended_relaxation_cascade (f : Filters) (envs : Nat → AttemptEnv)
    (hrelax : f.relaxFilters = true)
    (hzero : ∀ j af, (searchAttemptsOf f).get? j = some af →
      runAttempt af (envs j) = .zero) :
    searchAttemptsOf f =
      [ { genres := [], decades := f.decades, difficulty := f.difficulty,
          relaxFilters := true },
        { genres := [], decades := [], difficulty := f.difficulty,
          relaxFilters := true },
        { genres := [], decades := [], difficulty := f.difficulty,
          relaxFilters := false } ] ∧
    getRandomTrack f true envs = .noTracks f ∧
    (getRandomTrackT f true envs).2 = searchAttemptsOf f := by
  have hcas : runCascade f envs (searchAttemptsOf f) 0 =
      (.noTracks f, searchAttemptsOf f) := by
    refine runCascade_all_zero f envs _ 0 ?_
    intro j af hj
    simpa using hzero j af hj
  refine ⟨?_, ?_, ?_⟩
  · rw [searchAttemptsOf, if_pos hrelax]
    rcases f with ⟨g, d, df, rx⟩
    simp only at hrelax
    rw [hrelax]
  · rw [getRandomTrack, getRandomTrackT, if_pos rfl, hcas]
  · rw [getRandomTrackT, if_pos rfl, hcas]

/-- C1 amended witness: concrete relax-enabled filters and an environment
in which every variant's catalog source yields no candidates. -/
theorem C1_amended_relaxation_cascade_witness :
    getRandomTrack
      { genres := ["pop"], decades := ["1990s"], difficulty := ["easy"],
        relaxFilters := true }
      true
      (fun _ =>
        { availableSeeds := [], recResponse := .badStatus 404,
          searchResponse := .ok [], trackGenres := fun _ => [],
          lookupFails := fun _ => false, rand := 0 }) =
      .noTracks
        { genres := ["pop"], decades := ["1990s"], difficulty := ["easy"],
          relaxFilters := true } :=
  (C1_amended_relaxation_cascade
    { genres := ["pop"], decades := ["1990s"], difficulty := ["easy"],
      relaxFilters := true }
    (fun _ =>
      { availableSeeds := [], recResponse := .badStatus 404,
        searchResponse := .ok [], trackGenres := fun _ => [],
        lookupFails := fun _ => false, rand := 0 })
    rfl
    (by
      intro j af hj
      match j, hj with
      | 0, hj => injection hj with hj; rw [← hj]; rfl
      | 1, hj => injection hj with hj; rw [← hj]; rfl
      | 2, hj => injection hj with hj; rw [← hj]; rfl)).2.1

/-! ## C2 -/

/-- C2 counterexample: a cascade run in which the only candidate has an
empty preview URL still returns that track — `getRandomTrack` applies no
playback-eligibility restriction, so the claim that a variant whose
surviving candidates all lack a preview URL yields zero eligible tracks
(and that no returned track has an empty preview URL) is false at this
input. -/
theorem C2_counterexample :
    getRandomTrack
      { genres := [], decades := [], difficulty := [], relaxFilters := false }
      true
      (fun _ =>
        { availableSeeds := [],
          recResponse := .badStatus 404,
          searchResponse := .ok
            [ { id := "t1", name := "No Preview", artistIds := ["a1"],
                albumId := "al1", releaseDate := some "1999-05-01",
                previewUrl := "", popularity := some 50 } ],
          trackGenres := fun _ => [],
          lookupFails := fun _ => false, rand := 0 }) =
      .track
        { id := "t1", name := "No Preview", artistIds := ["a1"],
          albumId := "al1", releaseDate := some "1999-05-01",
          previewUrl := "", popularity := some 50 } ∧
    hasPreviewUrl
      { id := "t1", name := "No Preview", artistIds := ["a1"],
        albumId := "al1", releaseDate := some "1999-05-01",
        previewUrl := "", popularity := some 50 } = false := by
  constructor
  · rfl
  · rfl

/-- C2 amended: `getRandomTrack` applies no playback-eligibility step —
after decade, genre and difficulty filtering the surviving candidates are
used as-is, so a variant whose survivors all lack a preview URL still
returns one of them (the repository's `hasPreviewUrl` helper is never
consulted by the engine; surfacing a full-track fallback is left to the
caller). -/
theorem C2_amended_no_preview_restriction (af : Filters) (env : AttemptEnv)
    (tracks : List SpotifyTrack)
    (hsrc : sourceStep af env = .got tracks)
    (hall : ∀ t ∈ difficultyFilter af
      (genreVerify af env.trackGenres env.lookupFails (decadeFilter af tracks)),
      hasPreviewUrl t = false)
    (hne : difficultyFilter af
      (genreVerify af env.trackGenres env.lookupFails (decadeFilter af tracks))
      ≠ []) :
    ∃ t, runAttempt af env = .found t ∧ hasPreviewUrl t = false := by
  have hlen : (difficultyFilter af
      (genreVerify af env.trackGenres env.lookupFails
        (decadeFilter af tracks))).length > 0 :=
    List.length_pos.mpr hne
  simp only [runAttempt, hsrc]
  rw [dif_pos hlen]
  exact ⟨_, rfl, hall _ (List.get_mem _ _ _)⟩

/-- C2 amended witness: the concrete preview-less candidate of the
counterexample environment is returned by its variant. -/
theorem C2_amended_no_preview_restriction_witness :
    ∃ t, runAttempt
      { genres := [], decades := [], difficulty := [], relaxFilters := false }
      { availableSeeds := [],
        recResponse := .badStatus 404,
        searchResponse := .ok
          [ { id := "t2", name := "Still No Preview", artistIds := ["a2"],
              albumId := "al2", releaseDate := none,
              previewUrl := "", popularity := some 30 } ],
        trackGenres := fun _ => [],
        lookupFails := fun _ => false, rand := 0 } = .found t ∧
    hasPreviewUrl t = false :=
  C2_amended_no_preview_restriction
    { genres := [], decades := [], difficulty := [], relaxFilters := false }
    { availableSeeds := [],
      recResponse := .badStatus 404,
      searchResponse := .ok
        [ { id := "t2", name := "Still No Preview", artistIds := ["a2"],
            albumId := "al2", releaseDate := none,
            previewUrl := "", popularity := some 30 } ],
      trackGenres := fun _ => [],
      lookupFails := fun _ => false, rand := 0 }
    [ { id := "t2", name := "Still No Preview", artistIds := ["a2"],
        albumId := "al2", releaseDate := none,
        previewUrl := "", popularity := some 30 } ]
    rfl
    (by decide)
    (by decide)

/-! ## C7 -/

/-- C7 counterexample: a thrown network error in the FIRST variant's
search fetch aborts the whole `getRandomTrack` call with `null` after a
single attempted variant — the cascade does not proceed to the remaining
two variants, so the claim that network errors inside one variant are
absorbed locally and the cascade proceeds is false at this input. -/
theorem C7_counterexample :
    getRandomTrack
      { genres := [], decades := [], difficulty := [], relaxFilters := true }
      true
      (fun _ =>
        { availableSeeds := [], recResponse := .ok [],
          searchResponse := .exn, trackGenres := fun _ => [],
          lookupFails := fun _ => false, rand := 0 }) = .nullResult ∧
    (getRandomTrackT
      { genres := [], decades := [], difficulty := [], relaxFilters := true }
      true
      (fun _ =>
        { availableSeeds := [], recResponse := .ok [],
          searchResponse := .exn, trackGenres := fun _ => [],
          lookupFails := fun _ => false, rand := 0 })).2.length = 1 := by
  constructor
  · rfl
  · rfl

/-- C7 amended: only non-2xx RESPONSES are absorbed locally — a failing
recommendations response (or unresolvable seeds) makes the variant yield
zero candidates and the cascade proceeds, and a failing search response
leaves an empty candidate list — but a THROWN fetch/parsing error is not
absorbed: it escapes to the outer catch and the whole call returns `null`
(a variant is never retried and later variants are never tried), the same
hard outcome as an authorization failure. -/
theorem C7_amended_error_propagation (af f : Filters) (env : AttemptEnv)
    (envs : Nat → AttemptEnv) (st : Nat) (af0 : Filters)
    (hgen : af.genres.length > 0) :
    (env.recResponse = .badStatus st → runAttempt af env = .zero) ∧
    (∀ af' : Filters, af'.genres = [] → env.searchResponse = .badStatus st →
      runAttempt af' env = .zero) ∧
    ((af.genres.map normSeed).filter
        (fun g => env.availableSeeds.contains g) ≠ [] →
      env.recResponse = .exn → runAttempt af env = .thrown) ∧
    (∀ af' : Filters, af'.genres = [] → env.searchResponse = .exn →
      runAttempt af' env = .thrown) ∧
    ((searchAttemptsOf f).head? = some af0 →
      runAttempt af0 (envs 0) = .thrown →
      getRandomTrack f true envs = .nullResult) ∧
    getRandomTrack f false envs = .nullResult := by
  refine ⟨?_, ?_, ?_, ?_, ?_, rfl⟩
  · intro hrec
    rw [runAttempt, sourceStep, if_pos hgen, hrec]
    by_cases hv : ((af.genres.map normSeed).filter
        (fun g => env.availableSeeds.contains g)).length = 0
    · rw [if_pos hv]
    · rw [if_neg hv]
  · intro af' hg hresp
    rw [runAttempt, sourceStep, if_neg (by simp [hg]), hresp]
    simp [decadeFilter, genreVerify, difficultyFilter]
  · intro hseeds hrec
    rw [runAttempt, sourceStep, if_pos hgen, hrec]
    rw [if_neg (by simpa using List.length_pos.mpr hseeds |>.ne')]
  · intro af' hg hresp
    rw [runAttempt, sourceStep, if_neg (by simp [hg]), hresp]
  · intro hhd hth
    rcases hl : searchAttemptsOf f with _ | ⟨a0, rest⟩
    · rw [hl] at hhd; cases hhd
    · rw [hl] at hhd
      injection hhd with hhd
      rw [getRandomTrack, getRandomTrackT, if_pos rfl, hl, runCascade,
        hhd, hth]

/-- C7 amended witness: a concrete 502 response is absorbed while a
concrete thrown error aborts the call. -/
theorem C7_amended_error_propagation_witness :
    runAttempt
      { genres := ["pop"], decades := [], difficulty := [],
        relaxFilters := false }
      { availableSeeds := ["pop"], recResponse := .badStatus 502,
        searchResponse := .exn, trackGenres := fun _ => [],
        lookupFails := fun _ => false, rand := 0 } = .zero ∧
    getRandomTrack
      { genres := ["pop"], decades := [], difficulty := [],
        relaxFilters := false }
      false
      (fun _ =>
        { availableSeeds := ["pop"], recResponse := .badStatus 502,
          searchResponse := .exn, trackGenres := fun _ => [],
          lookupFails := fun _ => false, rand := 0 }) = .nullResult :=
  have h := C7_amended_error_propagation
    { genres := ["pop"], decades := [], difficulty := [],
      relaxFilters := false }
    { genres := ["pop"], decades := [], difficulty := [],
      relaxFilters := false }
    { availableSeeds := ["pop"], recResponse := .badStatus 502,
      searchResponse := .exn, trackGenres := fun _ => [],
      lookupFails := fun _ => false, rand := 0 }
    (fun _ =>
      { availableSeeds := ["pop"], recResponse := .badStatus 502,
        searchResponse := .exn, trackGenres := fun _ => [],
        lookupFails := fun _ => false, rand := 0 })
    502
    { genres := ["pop"], decades := [], difficulty := [],
      relaxFilters := false }
    (by decide)
  ⟨h.1 rfl, h.2.2.2.2.2⟩

/-! ## C8 -/

/-- C8 counterexample: a 401 response to the genre-seeds call produces an
empty result with a single fetch and NO re-authentication — the claim
that every catalog call receiving a 401 performs exactly one
re-authentication followed by one retry of the same call is false at this
input. -/
theorem C8_counterexample :
    getAvailableGenres { tokenOk := true, response := .badStatus 401 } = [] ∧
    getAvailableGenresFetchCount
      { tokenOk := true, response := .badStatus 401 } = 1 ∧
    getAvailableGenresReauthCount
      { tokenOk := true, response := .badStatus 401 } = 0 := by
  refine ⟨rfl, rfl, rfl⟩

/-- C8 amended: the engine has no 401 handling at all — a 401 is treated
exactly like any other non-2xx status: `getAvailableGenres` returns `[]`
after its single fetch with no re-authentication and no retry, and a
cascade variant behaves identically under a 401 and under any other
failing status on either catalog call (the variant just yields zero
candidates from that source). -/
theorem C8_amended_no_401_retry (env : GenresEnv) (st st' : Nat)
    (af : Filters) (aenv : AttemptEnv)
    (h : env.response = .badStatus st) :
    getAvailableGenres env = [] ∧
    getAvailableGenresReauthCount env = 0 ∧
    getAvailableGenresFetchCount env ≤ 1 ∧
    runAttempt af { aenv with recResponse := .badStatus st } =
      runAttempt af { aenv with recResponse := .badStatus st' } ∧
    runAttempt af { aenv with searchResponse := .badStatus st } =
      runAttempt af { aenv with searchResponse := .badStatus st' } := by
  refine ⟨?_, rfl, ?_, ?_, ?_⟩
  · rw [getAvailableGenres]
    rcases env with ⟨tok, resp⟩
    simp only at h
    rw [h]
    rcases tok with _ | _ <;> rfl
  · rw [getAvailableGenresFetchCount]
    rcases env.tokenOk with _ | _ <;> simp
  · rw [runAttempt, runAttempt, sourceStep, sourceStep]
  · rw [runAttempt, runAttempt, sourceStep, sourceStep]

/-- C8 amended witness: 401 and 500 responses are indistinguishable to
the engine. -/
theorem C8_amended_no_401_retry_witness :
    getAvailableGenres { tokenOk := true, response := .badStatus 401 } = [] ∧
    runAttempt
      { genres := ["pop"], decades := [], difficulty := [],
        relaxFilters := false }
      { availableSeeds := ["pop"], recResponse := .badStatus 401,
        searchResponse := .ok [], trackGenres := fun _ => [],
        lookupFails := fun _ => false, rand := 0 } =
    runAttempt
      { genres := ["pop"], decades := [], difficulty := [],
        relaxFilters := false }
      { availableSeeds := ["pop"], recResponse := .badStatus 500,
        searchResponse := .ok [], trackGenres := fun _ => [],
        lookupFails := fun _ => false, rand := 0 } :=
  have h := C8_amended_no_401_retry
    { tokenOk := true, response := .badStatus 401 } 401 500
    { genres := ["pop"], decades := [], difficulty := [],
      relaxFilters := false }
    { availableSeeds := ["pop"], recResponse := .badStatus 401,
      searchResponse := .ok [], trackGenres := fun _ => [],
      lookupFails := fun _ => false, rand := 0 }
    rfl
  ⟨h.1, h.2.2.2.1⟩

/-! ## C10 -/

lemma runAttempt_found_mem {af : Filters} {env : AttemptEnv}
    {t : SpotifyTrack} (h : runAttempt af env = .found t) :
    ∃ tracks0, sourceStep af env = .got tracks0 ∧
      t ∈ difficultyFilter af
        (genreVerify af env.trackGenres env.lookupFails
          (decadeFilter af tracks0)) := by
  rw [runAttempt] at h
  rcases hs : sourceStep af env with _ | tracks0 | _ <;>
    rw [hs] at h <;> simp only at h
  · cases h
  · refine ⟨tracks0, rfl, ?_⟩
    split at h
    · injection h with h'
      rw [← h']
      exact List.get_mem _ _ _
    · cases h
  · cases h

lemma mem_difficultyFilter_window {af : Filters} {l : List SpotifyTrack}
    {t : SpotifyTrack} (hd : af.difficulty.length > 0)
    (ht : t ∈ difficultyFilter af l) :
    (difficultyWindow af.difficulty).1 ≤ popVal t ∧
    popVal t ≤ (difficultyWindow af.difficulty).2 := by
  rw [difficultyFilter] at ht
  by_cases hl : l.length > 0
  · rw [if_pos hl] at ht
    simp only [if_pos hd] at ht
    have := (List.mem_filter.1 ht).2
    exact of_decide_eq_true this
  · rw [if_neg hl] at ht
    have hnil : l = [] := List.length_eq_zero.mp (by omega)
    rw [hnil] at ht
    cases ht

/-- C10: whenever the requested difficulty set contains at least one
recognized label (every cascade variant carries the caller's difficulty
unchanged), any track returned by `getRandomTrack` has popularity
(missing treated as 0) inside the merged band envelope, because the
envelope is re-applied as a local filter after candidates are fetched —
including candidates from the unconstrained search fallback. -/
theorem C10_envelope_reapplied (f : Filters) (tokenOk : Bool)
    (envs : Nat → AttemptEnv) (t : SpotifyTrack)
    (hrec : selectedRanges f.difficulty ≠ [])
    (ht : getRandomTrack f tokenOk envs = .track t) :
    (difficultyWindow f.difficulty).1 ≤ popVal t ∧
    popVal t ≤ (difficultyWindow f.difficulty).2 := by
  have hdlen : f.difficulty.length > 0 := by
    rcases hd : f.difficulty with _ | ⟨x, xs⟩
    · exact absurd (by rw [selectedRanges, hd]; rfl) hrec
    · simp
  rcases htok : tokenOk with _ | _
  · rw [htok] at ht
    cases ht
  · rw [htok, getRandomTrack, getRandomTrackT, if_pos rfl] at ht
    rcases runCascade_track_mem ht with ⟨af, hmem, k, hfound⟩
    have hdiff : af.difficulty = f.difficulty :=
      searchAttempts_difficulty f af hmem
    rcases runAttempt_found_mem hfound with ⟨tracks0, _, htmem⟩
    have := mem_difficultyFilter_window (hdiff ▸ hdlen) htmem
    rw [hdiff] at this
    exact this

/-- C10 witness: difficulty {easy} with a search-fallback candidate of
popularity 80 — the returned track's popularity lies in [70, 100]. -/
theorem C10_envelope_reapplied_witness :
    (difficultyWindow
      ({ genres := [], decades := [], difficulty := ["easy"],
         relaxFilters := false } : Filters).difficulty).1 ≤
      popVal
        { id := "t3", name := "Hit", artistIds := ["a3"], albumId := "al3",
          releaseDate := none, previewUrl := "https://p/t3.mp3",
          popularity := some 80 } ∧
    popVal
      { id := "t3", name := "Hit", artistIds := ["a3"], albumId := "al3",
        releaseDate := none, previewUrl := "https://p/t3.mp3",
        popularity := some 80 } ≤
      (difficultyWindow
        ({ genres := [], decades := [], difficulty := ["easy"],
           relaxFilters := false } : Filters).difficulty).2 :=
  C10_envelope_reapplied
    { genres := [], decades := [], difficulty := ["easy"],
      relaxFilters := false }
    true
    (fun _ =>
      { availableSeeds := [], recResponse := .badStatus 404,
        searchResponse := .ok
          [ { id := "t3", name := "Hit", artistIds := ["a3"],
              albumId := "al3", releaseDate := none,
              previewUrl := "https://p/t3.mp3", popularity := some 80 } ],
        trackGenres := fun _ => [],
        lookupFails := fun _ => false, rand := 0 })
    { id := "t3", name := "Hit", artistIds := ["a3"], albumId := "al3",
      releaseDate := none, previewUrl := "https://p/t3.mp3",
      popularity := some 80 }
    (by decide)
    rfl

end SongSmash
